import Mathlib

/-!
Verification of the financial calculation core of the Delegacje repository:
the diet (per-diem) calculator, the project balance calculator, the net-salary
calculator, and the duplicate-document detector.

Modelling conventions:
* JavaScript numbers are modelled as rationals (`ℚ`); the binary floating-point
  representation is abstracted away, so every arithmetic step of the source is
  mirrored exactly on `ℚ`.
* `Date` instants are modelled as their epoch-millisecond value (`ℤ`), which is
  what the source reads via `getTime()`.  `new Date()` (wall-clock reads) become
  an explicit `now : ℤ` parameter.
* `Math.round x` is `⌊x + 1/2⌋` (round half toward +∞), which is the ECMAScript
  definition; `x.toFixed(2)` applies the sign first and then rounds `|x|·100`
  half up, again as ECMAScript specifies.
* Fallible code (`throw new Error`) is modelled with `Except String`.
-/

/-- `Math.round(value * 100) / 100` — round to 2 decimal places. -/
def round2 (value : ℚ) : ℚ := (⌊value * 100 + 1/2⌋ : ℤ) / 100

/-- `Math.round` on a rational: round half toward +∞. -/
def jsRound (value : ℚ) : ℚ := (⌊value + 1/2⌋ : ℤ)

/-- `value.toFixed(2)`: ECMAScript renders the sign first, then formats the
rounded absolute value with exactly two fraction digits. -/
def toFixed2 (value : ℚ) : String :=
  let sign := if value < 0 then "-" else ""
  let n : ℤ := ⌊|value| * 100 + 1/2⌋
  let frac := n % 100
  sign ++ toString (n / 100) ++ "." ++
    (if frac < 10 then "0" ++ toString frac else toString frac)

/-- JS number-to-string interpolation, modelled for the decimal values that the
source ever renders this way (integers and tenths); other denominators fall
back to a two-decimal rendering.  Display only; no claim inspects it. -/
def jsNumToString (q : ℚ) : String :=
  if q.den = 1 then toString q.num
  else if q.den = 2 ∨ q.den = 5 ∨ q.den = 10 then
    let sign := if q < 0 then "-" else ""
    let n : ℤ := ⌊|q| * 10⌋
    sign ++ toString (n / 10) ++ "." ++ toString (n % 10)
  else toFixed2 q

/-- JS `toUpperCase`, modelled structurally on the character list (the same
per-character mapping as `String.toUpper`, written so the kernel can evaluate
it). -/
def jsToUpper (s : String) : String := String.mk (s.data.map Char.toUpper)

/-- JS `toLowerCase`, modelled structurally on the character list. -/
def jsToLower (s : String) : String := String.mk (s.data.map Char.toLower)

/-- JS `trim`: strip leading and trailing whitespace, modelled structurally on
the character list. -/
def jsTrim (s : String) : String :=
  String.mk (((s.data.dropWhile Char.isWhitespace).reverse.dropWhile
    Char.isWhitespace).reverse)

/- ── calculateDiet.ts ─────────────────────────────────────────────── -/

inductive DietMode
  | LIVE
  | PLANNED
  | CLOSED
deriving DecidableEq, Repr

structure DietInput where
  startDatetime : ℤ
  plannedEndDatetime : Option ℤ
  actualEndDatetime : Option ℤ
  mode : DietMode
  dailyRate : ℚ
  currency : String
  breakfastCount : ℚ
deriving DecidableEq, Repr

structure DietBreakdown where
  day : ℤ
  date : ℤ
  hours : ℚ
  multiplier : ℚ
  amount : ℚ
deriving DecidableEq, Repr

structure DietResult where
  fullDays : ℤ
  partialDay : ℚ
  partialDayMultiplier : ℚ
  totalDays : ℚ
  dietBeforeBreakfast : ℚ
  breakfastDeduction : ℚ
  totalDiet : ℚ
  currency : String
  breakdown : String
  detailedBreakdown : List DietBreakdown
  endDatetime : ℤ
  isLive : Bool
deriving DecidableEq, Repr

/-- `(endDatetime.getTime() - startDatetime.getTime()) / (1000 * 60 * 60)`. -/
def tripTotalHours (startDatetime endDatetime : ℤ) : ℚ :=
  ((endDatetime - startDatetime : ℤ) : ℚ) / (1000 * 60 * 60)

/-- `Math.floor(totalHours / 24)`. -/
def dietFullDays (totalHours : ℚ) : ℤ := ⌊totalHours / 24⌋

/-- `totalHours % 24`; for the non-negative dividends that occur this equals
the dividend minus 24 times the floored quotient. -/
def dietRemainder (totalHours : ℚ) : ℚ :=
  totalHours - 24 * (dietFullDays totalHours : ℚ)

/-- `getMultiplierForHours` (the helper actually used by `calculateDiet`). -/
def getMultiplierForHours (hours : ℚ) : ℚ :=
  if hours < 8 then 1/3
  else if 8 ≤ hours ∧ hours < 12 then 1/2
  else 1

/-- `new Date(ms).toISOString().split('T')[0]`: the calendar day is modelled by
its epoch-day number (the ISO `YYYY-MM-DD` string is a bijective rendering of
it, with the same equality). -/
def normalizeDay (ms : ℤ) : ℤ := Int.fdiv ms 86400000

structure BreakdownParams where
  fullDays : ℤ
  remainingHours : ℚ
  partialDayMultiplier : ℚ
  totalDays : ℚ
  dietBeforeBreakfast : ℚ
  breakfastCount : ℚ
  breakfastDeduction : ℚ
  totalDiet : ℚ
  currency : String
  dailyRate : ℚ
deriving DecidableEq, Repr

/-- `buildPolishBreakdown` — the human-readable Polish summary. -/
def buildPolishBreakdown (p : BreakdownParams) : String :=
  let line1 := "Pełne doby: " ++ toString p.fullDays ++ " × " ++
    jsNumToString p.dailyRate ++ " " ++ p.currency ++ " = " ++
    toFixed2 ((p.fullDays : ℚ) * p.dailyRate) ++ " " ++ p.currency
  let partialLines :=
    if 0 < p.remainingHours then
      let hours := jsRound (p.remainingHours * 10) / 10
      let partialDesc :=
        if p.partialDayMultiplier = 1/3 then
          jsNumToString hours ++ "h < 8h → 1/3 diety"
        else if p.partialDayMultiplier = 1/2 then
          jsNumToString hours ++ "h (8-12h) → 1/2 diety"
        else
          jsNumToString hours ++ "h ≥ 12h → pełna dieta"
      ["Niepełna doba: " ++ partialDesc ++ " = " ++
        toFixed2 (p.dailyRate * p.partialDayMultiplier) ++ " " ++ p.currency]
    else []
  let breakfastLines :=
    if 0 < p.breakfastCount then
      ["Odliczenie śniadań: " ++ jsNumToString p.breakfastCount ++ " × 25% = -" ++
        toFixed2 p.breakfastDeduction ++ " " ++ p.currency]
    else []
  String.intercalate "\n"
    ([line1] ++ partialLines ++ breakfastLines ++
      ["ŁĄCZNIE: " ++ toFixed2 p.totalDiet ++ " " ++ p.currency])

/-- Shared body of `calculateDiet` once the end instant and the `isLive` flag
have been selected from the mode (the source computes the same expressions
inline after the `switch`). -/
def calculateDietCore (startDatetime endDatetime : ℤ) (dailyRate : ℚ)
    (currency : String) (breakfastCount : ℚ) (isLive : Bool) : DietResult :=
  if endDatetime ≤ startDatetime then
    { fullDays := 0
      partialDay := 0
      partialDayMultiplier := 0
      totalDays := 0
      dietBeforeBreakfast := 0
      breakfastDeduction := 0
      totalDiet := 0
      currency := currency
      breakdown := "Delegacja jeszcze się nie zaczęła lub ma zerowy czas trwania."
      detailedBreakdown := []
      endDatetime := endDatetime
      isLive := isLive }
  else
    let totalHours := tripTotalHours startDatetime endDatetime
    let fullDays := dietFullDays totalHours
    let remainingHours := dietRemainder totalHours
    let partialDayMultiplier := getMultiplierForHours remainingHours
    let partialDayFraction := if 0 < remainingHours then partialDayMultiplier else 0
    let totalDays := (fullDays : ℚ) + partialDayFraction
    let dietBeforeBreakfast := totalDays * dailyRate
    let breakfastDeductionPerMeal := dailyRate * (25/100)
    let breakfastDeduction :=
      min (breakfastCount * breakfastDeductionPerMeal) dietBeforeBreakfast
    let totalDiet := max 0 (dietBeforeBreakfast - breakfastDeduction)
    let fullRows := (List.range fullDays.toNat).map (fun day =>
      ({ day := (day : ℤ) + 1
         date := normalizeDay (startDatetime + (day : ℤ) * 86400000)
         hours := 24
         multiplier := 1
         amount := dailyRate } : DietBreakdown))
    let partialRows :=
      if 0 < remainingHours then
        [({ day := fullDays + 1
            date := normalizeDay (startDatetime + fullDays * 86400000)
            hours := jsRound (remainingHours * 10) / 10
            multiplier := partialDayMultiplier
            amount := dailyRate * partialDayMultiplier } : DietBreakdown)]
      else []
    { fullDays := fullDays
      partialDay := jsRound (remainingHours * 10) / 10
      partialDayMultiplier := partialDayMultiplier
      totalDays := round2 totalDays
      dietBeforeBreakfast := round2 dietBeforeBreakfast
      breakfastDeduction := round2 breakfastDeduction
      totalDiet := round2 totalDiet
      currency := currency
      breakdown := buildPolishBreakdown
        { fullDays := fullDays
          remainingHours := remainingHours
          partialDayMultiplier := partialDayMultiplier
          totalDays := totalDays
          dietBeforeBreakfast := dietBeforeBreakfast
          breakfastCount := breakfastCount
          breakfastDeduction := breakfastDeduction
          totalDiet := totalDiet
          currency := currency
          dailyRate := dailyRate }
      detailedBreakdown := fullRows ++ partialRows
      endDatetime := endDatetime
      isLive := isLive }

/-- `calculateDiet` — selects the end instant from the mode (throwing when the
required end is absent) and computes the diet.  `now` models `new Date()`. -/
def calculateDiet (now : ℤ) (input : DietInput) : Except String DietResult :=
  match input.mode with
  | DietMode.LIVE =>
      Except.ok (calculateDietCore input.startDatetime now input.dailyRate
        input.currency input.breakfastCount true)
  | DietMode.PLANNED =>
      match input.plannedEndDatetime with
      | none => Except.error "plannedEndDatetime required for PLANNED mode"
      | some e => Except.ok (calculateDietCore input.startDatetime e
          input.dailyRate input.currency input.breakfastCount false)
  | DietMode.CLOSED =>
      match input.actualEndDatetime with
      | none => Except.error "actualEndDatetime required for CLOSED mode"
      | some e => Except.ok (calculateDietCore input.startDatetime e
          input.dailyRate input.currency input.breakfastCount false)

/- ── calculateProjectBalance.ts ───────────────────────────────────── -/

structure TransactionSummary where
  id : String
  date : ℤ
  amount : ℚ
  category : String
  isPrivate : Bool
  excludedFromProject : Bool
deriving DecidableEq, Repr

structure AdvanceSummary where
  id : String
  date : ℤ
  amount : ℚ
deriving DecidableEq, Repr

inductive ProjectStatus
  | ACTIVE
  | CLOSED
  | DRAFT
deriving DecidableEq, Repr

structure Project where
  startDatetime : ℤ
  plannedEndDatetime : Option ℤ
  actualEndDatetime : Option ℤ
  status : ProjectStatus
  dietAmountSnapshot : ℚ
  hotelLimitSnapshot : ℚ
  currency : String
  breakfastCount : ℚ
deriving DecidableEq, Repr

structure ProjectBalanceInput where
  project : Project
  transactions : List TransactionSummary
  advances : List AdvanceSummary
deriving DecidableEq, Repr

structure CategoryTotals where
  FOOD : ℚ
  TRANSPORT : ℚ
  HOTEL : ℚ
  PARKING : ℚ
  FUEL : ℚ
  OTHER : ℚ
deriving DecidableEq, Repr

inductive HotelStatus
  | within_limit
  | over_limit
  | no_hotel
deriving DecidableEq, Repr

structure ProjectBalanceResult where
  advancesTotal : ℚ
  expensesTotal : ℚ
  categoryTotals : CategoryTotals
  hotelCombined : ℚ
  hotelLimit : ℚ
  hotelStatus : HotelStatus
  hotelOverage : ℚ
  diet : DietResult
  balance : ℚ
  balanceDescription : String
  averageDailyExpense : ℚ
  transactionCount : ℕ
deriving DecidableEq, Repr

/-- `getDietMode` — which diet mode the project status selects. -/
def getDietMode (status : ProjectStatus) (actualEndDatetime : Option ℤ) : DietMode :=
  if status = ProjectStatus.CLOSED ∧ actualEndDatetime.isSome then DietMode.CLOSED
  else if status = ProjectStatus.ACTIVE then DietMode.LIVE
  else DietMode.PLANNED

/-- The `DietInput` that `calculateProjectBalance` assembles for `calculateDiet`. -/
def projectDietInput (project : Project) : DietInput :=
  { startDatetime := project.startDatetime
    plannedEndDatetime := project.plannedEndDatetime
    actualEndDatetime := project.actualEndDatetime
    mode := getDietMode project.status project.actualEndDatetime
    dailyRate := project.dietAmountSnapshot
    currency := project.currency
    breakfastCount := project.breakfastCount }

/-- One step of the category accumulation loop: `categoryTotals[cat] =
round2(categoryTotals[cat] + t.amount)` with unknown categories bucketed into
`OTHER` (the source upper-cases the category and tests membership). -/
def addToCategory (totals : CategoryTotals) (t : TransactionSummary) : CategoryTotals :=
  let cat := jsToUpper t.category
  if cat = "FOOD" then { totals with FOOD := round2 (totals.FOOD + t.amount) }
  else if cat = "TRANSPORT" then { totals with TRANSPORT := round2 (totals.TRANSPORT + t.amount) }
  else if cat = "HOTEL" then { totals with HOTEL := round2 (totals.HOTEL + t.amount) }
  else if cat = "PARKING" then { totals with PARKING := round2 (totals.PARKING + t.amount) }
  else if cat = "FUEL" then { totals with FUEL := round2 (totals.FUEL + t.amount) }
  else { totals with OTHER := round2 (totals.OTHER + t.amount) }

/-- `calculateTripHours` — elapsed hours used for the average-daily statistic. -/
def calculateTripHours (now : ℤ) (project : Project) : ℚ :=
  let endDate : ℤ :=
    match project.status, project.actualEndDatetime with
    | ProjectStatus.CLOSED, some actualEnd => actualEnd
    | s, _ =>
        match project.plannedEndDatetime with
        | some plannedEnd => if s = ProjectStatus.ACTIVE then now else plannedEnd
        | none => now
  max 0 (((endDate - project.startDatetime : ℤ) : ℚ) / (1000 * 60 * 60))

structure BalanceParts where
  advancesTotal : ℚ
  expensesTotal : ℚ
  dietTotal : ℚ
deriving DecidableEq, Repr

/-- `buildBalanceDescription` — the user-facing balance summary text. -/
def buildBalanceDescription (balance : ℚ) (currency : String)
    (parts : BalanceParts) : String :=
  let sign := if 0 ≤ balance then "+" else ""
  let status :=
    if 0 < balance then "✅ Firma dopłaci Ci do wypłaty"
    else if balance < 0 then "❌ Musisz zwrócić firmie"
    else "✓ Rozliczenie zerowe"
  String.intercalate "\n"
    [ "Zaliczki: +" ++ toFixed2 parts.advancesTotal ++ " " ++ currency
    , "Wydatki: -" ++ toFixed2 parts.expensesTotal ++ " " ++ currency
    , "Dieta: +" ++ toFixed2 parts.dietTotal ++ " " ++ currency
    , "────────────────────"
    , "SALDO: " ++ sign ++ toFixed2 balance ++ " " ++ currency
    , status ]

/-- `calculateProjectBalance` — the main project balance calculation.  The only
fallible step is the internal `calculateDiet` call, whose exception propagates. -/
def calculateProjectBalance (now : ℤ) (input : ProjectBalanceInput) :
    Except String ProjectBalanceResult :=
  let project := input.project
  let validTransactions := input.transactions.filter
    (fun t => !t.isPrivate && !t.excludedFromProject)
  let advancesTotal := round2 (input.advances.foldl (fun sum a => sum + a.amount) 0)
  let categoryTotals := validTransactions.foldl addToCategory
    { FOOD := 0, TRANSPORT := 0, HOTEL := 0, PARKING := 0, FUEL := 0, OTHER := 0 }
  let expensesTotal := round2 (categoryTotals.FOOD + categoryTotals.TRANSPORT +
    categoryTotals.HOTEL + categoryTotals.PARKING + categoryTotals.FUEL +
    categoryTotals.OTHER)
  let hotelCombined := round2 (categoryTotals.HOTEL + categoryTotals.PARKING)
  let hotelLimit := project.hotelLimitSnapshot
  let hotelStatus : HotelStatus :=
    if 0 < hotelCombined then
      (if hotelCombined ≤ hotelLimit then HotelStatus.within_limit
       else HotelStatus.over_limit)
    else HotelStatus.no_hotel
  let hotelOverage : ℚ :=
    if 0 < hotelCombined ∧ ¬hotelCombined ≤ hotelLimit then
      round2 (hotelCombined - hotelLimit)
    else 0
  (calculateDiet now (projectDietInput project)).map (fun diet =>
    let balance := round2 (advancesTotal - expensesTotal + diet.totalDiet)
    let balanceDescription := buildBalanceDescription balance project.currency
      { advancesTotal := advancesTotal
        expensesTotal := expensesTotal
        dietTotal := diet.totalDiet }
    let tripHours := calculateTripHours now project
    let tripDays := tripHours / 24
    let averageDailyExpense := if 0 < tripDays then round2 (expensesTotal / tripDays) else 0
    { advancesTotal := advancesTotal
      expensesTotal := expensesTotal
      categoryTotals := categoryTotals
      hotelCombined := hotelCombined
      hotelLimit := hotelLimit
      hotelStatus := hotelStatus
      hotelOverage := hotelOverage
      diet := diet
      balance := balance
      balanceDescription := balanceDescription
      averageDailyExpense := averageDailyExpense
      transactionCount := validTransactions.length })

/- ── calculateSalaryNet.ts ────────────────────────────────────────── -/

structure TaxRates where
  pensionRate : ℚ
  disabilityRate : ℚ
  sicknessRate : ℚ
  healthInsuranceRate : ℚ
  incomeTaxRate : ℚ
  taxFreeMonthly : ℚ
  costOfIncome : ℚ
  maxCostOfIncome : ℚ
deriving DecidableEq, Repr

/-- Snapshot of 2024/2025 Polish tax law for civil contracts. -/
def TAX_RATES_2024_2025 : TaxRates :=
  { pensionRate := 976/10000
    disabilityRate := 15/1000
    sicknessRate := 245/10000
    healthInsuranceRate := 9/100
    incomeTaxRate := 12/100
    taxFreeMonthly := 300
    costOfIncome := 20/100
    maxCostOfIncome := 250 }

structure SalaryInput where
  brutto : ℚ
  voluntarySocialSecurity : Bool
  ppkEnabled : Bool
  ppkPercentage : ℚ
  taxRates : Option TaxRates
deriving DecidableEq, Repr

structure SalaryBreakdown where
  brutto : ℚ
  pensionContribution : ℚ
  disabilityContribution : ℚ
  sicknessContribution : ℚ
  totalSocialSecurity : ℚ
  healthInsuranceBase : ℚ
  healthInsurance : ℚ
  incomeBase : ℚ
  costOfIncome : ℚ
  taxBase : ℚ
  taxBeforeDeduction : ℚ
  taxFreeDeduction : ℚ
  incomeTax : ℚ
  ppkEmployee : ℚ
  netto : ℚ
deriving DecidableEq, Repr

structure SalaryResult where
  brutto : ℚ
  netto : ℚ
  pensionContribution : ℚ
  disabilityContribution : ℚ
  sicknessContribution : ℚ
  totalSocialSecurity : ℚ
  healthInsuranceBase : ℚ
  healthInsurance : ℚ
  incomeBase : ℚ
  costOfIncome : ℚ
  taxBase : ℚ
  taxBeforeDeduction : ℚ
  taxFreeDeduction : ℚ
  incomeTax : ℚ
  ppkEmployee : ℚ
  breakdown : SalaryBreakdown
  description : String
deriving DecidableEq, Repr

/-- `buildSalaryDescription` — the user-facing salary breakdown text. -/
def buildSalaryDescription (b : SalaryBreakdown) (voluntarySS ppkEnabled : Bool) :
    String :=
  let lines1 :=
    [ "Wynagrodzenie brutto: " ++ toFixed2 b.brutto ++ " PLN"
    , ""
    , "SKŁADKI ZUS:"
    , "  Emerytalna (9.76%): -" ++ toFixed2 b.pensionContribution ++ " PLN"
    , "  Rentowa (1.5%): -" ++ toFixed2 b.disabilityContribution ++ " PLN" ]
  let lines2 :=
    if voluntarySS then
      lines1 ++ ["  Chorobowa (2.45%): -" ++ toFixed2 b.sicknessContribution ++ " PLN"]
    else lines1
  let lines3 := lines2 ++
    [ "  Łącznie ZUS: -" ++ toFixed2 b.totalSocialSecurity ++ " PLN"
    , ""
    , "UBEZPIECZENIE ZDROWOTNE:"
    , "  Podstawa: " ++ toFixed2 b.healthInsuranceBase ++ " PLN"
    , "  Składka (9%): -" ++ toFixed2 b.healthInsurance ++ " PLN"
    , ""
    , "PODATEK DOCHODOWY:"
    , "  Podstawa przychodu: " ++ toFixed2 b.incomeBase ++ " PLN"
    , "  Koszty uzyskania (20%, max 250): -" ++ toFixed2 b.costOfIncome ++ " PLN"
    , "  Podstawa opodatkowania: " ++ toFixed2 b.taxBase ++ " PLN"
    , "  Podatek (12%): " ++ toFixed2 b.taxBeforeDeduction ++ " PLN"
    , "  Kwota wolna: -" ++ toFixed2 b.taxFreeDeduction ++ " PLN"
    , "  Podatek do zapłaty: -" ++ toFixed2 b.incomeTax ++ " PLN" ]
  let lines4 :=
    if ppkEnabled then
      lines3 ++ ["", "PPK (pracownik): -" ++ toFixed2 b.ppkEmployee ++ " PLN"]
    else lines3
  String.intercalate "\n"
    (lines4 ++ ["", "WYNAGRODZENIE NETTO: " ++ toFixed2 b.netto ++ " PLN"])

/-- `calculateSalaryNet` — net salary from gross for a Polish civil contract.
Note it has no contract-type input: the civil-contract formula is applied to
every input unconditionally. -/
def calculateSalaryNet (input : SalaryInput) : SalaryResult :=
  let brutto := input.brutto
  let rates := input.taxRates.getD TAX_RATES_2024_2025
  let pensionContribution := round2 (brutto * rates.pensionRate)
  let disabilityContribution := round2 (brutto * rates.disabilityRate)
  let sicknessContribution :=
    if input.voluntarySocialSecurity then round2 (brutto * rates.sicknessRate) else 0
  let totalSocialSecurity :=
    pensionContribution + disabilityContribution + sicknessContribution
  let healthInsuranceBase := round2 (brutto - totalSocialSecurity)
  let healthInsurance := round2 (healthInsuranceBase * rates.healthInsuranceRate)
  let incomeBase := round2 (brutto - totalSocialSecurity)
  let rawCostOfIncome := round2 (incomeBase * rates.costOfIncome)
  let costOfIncome := min rawCostOfIncome rates.maxCostOfIncome
  let taxBase := jsRound (max 0 (incomeBase - costOfIncome))
  let taxBeforeDeduction := round2 (taxBase * rates.incomeTaxRate)
  let taxFreeDeduction := min taxBeforeDeduction rates.taxFreeMonthly
  let incomeTax := max 0 (round2 (taxBeforeDeduction - taxFreeDeduction))
  let ppkEmployee :=
    if input.ppkEnabled then round2 (brutto * (input.ppkPercentage / 100)) else 0
  let netto := round2
    (brutto - totalSocialSecurity - healthInsurance - incomeTax - ppkEmployee)
  let breakdown : SalaryBreakdown :=
    { brutto := brutto
      pensionContribution := pensionContribution
      disabilityContribution := disabilityContribution
      sicknessContribution := sicknessContribution
      totalSocialSecurity := totalSocialSecurity
      healthInsuranceBase := healthInsuranceBase
      healthInsurance := healthInsurance
      incomeBase := incomeBase
      costOfIncome := costOfIncome
      taxBase := taxBase
      taxBeforeDeduction := taxBeforeDeduction
      taxFreeDeduction := taxFreeDeduction
      incomeTax := incomeTax
      ppkEmployee := ppkEmployee
      netto := netto }
  { brutto := brutto
    netto := netto
    pensionContribution := pensionContribution
    disabilityContribution := disabilityContribution
    sicknessContribution := sicknessContribution
    totalSocialSecurity := totalSocialSecurity
    healthInsuranceBase := healthInsuranceBase
    healthInsurance := healthInsurance
    incomeBase := incomeBase
    costOfIncome := costOfIncome
    taxBase := taxBase
    taxBeforeDeduction := taxBeforeDeduction
    taxFreeDeduction := taxFreeDeduction
    incomeTax := incomeTax
    ppkEmployee := ppkEmployee
    breakdown := breakdown
    description := buildSalaryDescription breakdown input.voluntarySocialSecurity
      input.ppkEnabled }

/- ── frontend close page: calculateTaxSnapshot ────────────────────── -/

structure TaxSnapshot where
  contractType : String
  salaryBrutto : ℚ
  currency : String
  zusEmerytalne : ℚ
  zusRentowe : ℚ
  zusChorobowe : ℚ
  zusRazem : ℚ
  podstawaZdrowotne : ℚ
  skladkaZdrowotna : ℚ
  kup : ℚ
  podstawaPIT : ℚ
  zaliczkaPIT : ℚ
  salaryNetto : ℚ
  dietaNetto : ℚ
  dietaTaxFree : Bool
  balance : ℚ
  snapshotDate : String
  taxYear : ℤ
  progPodatkowy : String
deriving DecidableEq, Repr

/-- `calculateTaxSnapshot` (frontend close-page preview).  The wall-clock reads
(`new Date().toISOString()`, `getFullYear()`) become the `snapshotDate` and
`taxYear` parameters.  The guard throws for a non-positive gross salary. -/
def calculateTaxSnapshot (snapshotDate : String) (taxYear : ℤ)
    (salaryBrutto : ℚ) (currency contractType : String)
    (voluntarySocialSecurity ppkEnabled : Bool)
    (ppkPercentage totalDiet balance : ℚ) : Except String TaxSnapshot :=
  if salaryBrutto ≤ 0 then
    Except.error "salaryBrutto musi być liczbą dodatnią"
  else
    let isZlecenie := contractType = "CIVIL_CONTRACT"
    let isPraca := contractType = "EMPLOYMENT"
    let isZUS := isZlecenie ∨ isPraca
    let zusEmerytalne := if isZUS then salaryBrutto * (976/10000) else 0
    let zusRentowe := if isZUS then salaryBrutto * (15/1000) else 0
    let zusChorobowe :=
      if isZUS ∧ voluntarySocialSecurity then salaryBrutto * (245/10000) else 0
    let zusRazem := zusEmerytalne + zusRentowe + zusChorobowe
    let ppk := if ppkEnabled then salaryBrutto * (ppkPercentage / 100) else 0
    let podstawaZdrowotne := max 0 (salaryBrutto - zusRazem)
    let skladkaZdrowotna := if isZUS then podstawaZdrowotne * (9/100) else 0
    let kup := if isZUS then min (salaryBrutto * (20/100)) 250 else 0
    let kwotaWolna : ℚ := if isZUS then 300 else 0
    let podstawaPIT := max 0 (salaryBrutto - zusRazem - kup)
    let progPodatkowy := if podstawaPIT * 12 ≤ 120000 then "12%" else "32%"
    let stawkaPIT : ℚ := if progPodatkowy = "12%" then 12/100 else 32/100
    let zaliczkaPIT := max 0 (podstawaPIT * stawkaPIT - kwotaWolna - skladkaZdrowotna)
    let salaryNetto := salaryBrutto - zusRazem - ppk - zaliczkaPIT
    Except.ok
      { contractType := contractType
        salaryBrutto := salaryBrutto
        currency := currency
        zusEmerytalne := zusEmerytalne
        zusRentowe := zusRentowe
        zusChorobowe := zusChorobowe
        zusRazem := zusRazem
        podstawaZdrowotne := podstawaZdrowotne
        skladkaZdrowotna := skladkaZdrowotna
        kup := kup
        podstawaPIT := podstawaPIT
        zaliczkaPIT := zaliczkaPIT
        salaryNetto := salaryNetto
        dietaNetto := totalDiet
        dietaTaxFree := true
        balance := balance
        snapshotDate := snapshotDate
        taxYear := taxYear
        progPodatkowy := progPodatkowy }

/- ── detectDuplicateDocument.ts ───────────────────────────────────── -/

inductive DuplicateConfidence
  | exact
  | high
  | medium
  | low
deriving DecidableEq, Repr

inductive SuggestedAction
  | merge
  | add_new
  | review
deriving DecidableEq, Repr

structure DocumentFingerprint where
  invoiceNumber : Option String
  amount : Option ℚ
  date : Option ℤ
  vendorName : Option String
deriving DecidableEq, Repr

structure ExistingDocument where
  id : String
  fingerprint : Option String
  invoiceNumber : Option String
  detectedAmount : Option ℚ
  detectedDate : Option ℤ
  vendorName : Option String
  originalFilename : String
deriving DecidableEq, Repr

structure DuplicateMatch where
  id : String
  invoiceNumber : Option String
  amount : Option ℚ
  date : Option ℤ
  vendorName : Option String
  originalFilename : String
  similarity : ℚ
  matchReason : String
deriving DecidableEq, Repr

structure DuplicateCheckResult where
  isDuplicate : Bool
  confidence : Option DuplicateConfidence
  matchedDocuments : List DuplicateMatch
  suggestedAction : Option SuggestedAction
deriving DecidableEq, Repr

/-- `generateDocumentFingerprint`.  The SHA-256 digest is modelled by its
normalized pre-image string ("invoice|amount|date"): every use of a digest in
the source is an equality test, and equal pre-images give equal digests (hash
collisions are ignored).  The `YYYY-MM-DD` date component is rendered through
its epoch-day number, see `normalizeDay`. -/
def generateDocumentFingerprint (doc : DocumentFingerprint) : String :=
  String.intercalate "|"
    [ jsToLower (jsTrim (doc.invoiceNumber.getD ""))
    , toFixed2 (doc.amount.getD 0)
    , match doc.date with
      | some d => toString (normalizeDay d)
      | none => "" ]

/-- JS truthiness of an optional string field: present and non-empty. -/
def truthyStr (s : Option String) : Bool :=
  match s with
  | some v => v != ""
  | none => false

/-- JS truthiness of an optional number field: present and non-zero. -/
def truthyNum (q : Option ℚ) : Bool :=
  match q with
  | some v => v != 0
  | none => false

/-- `Math.abs(amount1 - amount2) < 0.01`. -/
def amountsMatch (amount1 amount2 : ℚ) : Bool :=
  decide (|amount1 - amount2| < 1/100)

/-- `datesWithinDays`: millisecond distance divided by a day's milliseconds is
at most `days`. -/
def datesWithinDays (date1 date2 : ℤ) (days : ℚ) : Bool :=
  decide (|((date1 - date2 : ℤ) : ℚ)| / 86400000 ≤ days)

/-- The fingerprint generated for the new document, only when invoice number,
amount and date are all truthy. -/
def newDocFingerprint (newDoc : DocumentFingerprint) : Option String :=
  if truthyStr newDoc.invoiceNumber && truthyNum newDoc.amount && newDoc.date.isSome
  then some (generateDocumentFingerprint newDoc)
  else none

/-- Strategy 1 guard: exact fingerprint match (both fingerprints truthy and
equal). -/
def strat1 (newFp : Option String) (existing : ExistingDocument) : Bool :=
  match newFp, existing.fingerprint with
  | some nf, some ef => ef != "" && nf == ef
  | _, _ => false

/-- Strategy 2 guard: amount present on both sides (`!== undefined`, so zero
amounts participate), dates truthy, amounts within tolerance, same calendar
date. -/
def strat2 (newDoc : DocumentFingerprint) (existing : ExistingDocument) : Bool :=
  match newDoc.amount, newDoc.date, existing.detectedAmount, existing.detectedDate with
  | some a, some d, some ea, some ed =>
      amountsMatch a ea && (normalizeDay d == normalizeDay ed)
  | _, _, _, _ => false

/-- Strategy 3 guard: amount within tolerance and date within ±1 day. -/
def strat3 (newDoc : DocumentFingerprint) (existing : ExistingDocument) : Bool :=
  match newDoc.amount, newDoc.date, existing.detectedAmount, existing.detectedDate with
  | some a, some d, some ea, some ed =>
      amountsMatch a ea && datesWithinDays d ed 1
  | _, _, _, _ => false

/-- Strategy 4 guard: both invoice numbers truthy and equal after
trim/lower-casing. -/
def strat4 (newDoc : DocumentFingerprint) (existing : ExistingDocument) : Bool :=
  match newDoc.invoiceNumber, existing.invoiceNumber with
  | some a, some b => a != "" && b != "" && (jsToLower (jsTrim a) == jsToLower (jsTrim b))
  | _, _ => false

/-- Per-candidate body of the detection loop: the four strategies in order,
first match wins, producing the pushed `DuplicateMatch` (or none). -/
def matchCandidate (newDoc : DocumentFingerprint) (newFp : Option String)
    (existing : ExistingDocument) : Option DuplicateMatch :=
  let hit : Option (String × ℚ) :=
    if strat1 newFp existing then
      some ("Identyczny dokument (faktura + kwota + data)", 1)
    else if strat2 newDoc existing then
      some ("Identyczna kwota i data", 92/100)
    else if strat3 newDoc existing then
      some ("Identyczna kwota, data ±1 dzień", 78/100)
    else if strat4 newDoc existing then
      some ("Identyczny numer faktury", 3/5)
    else none
  hit.map (fun reasonSim =>
    { id := existing.id
      invoiceNumber := existing.invoiceNumber
      amount := existing.detectedAmount
      date := existing.detectedDate
      vendorName := existing.vendorName
      originalFilename := existing.originalFilename
      similarity := reasonSim.2
      matchReason := reasonSim.1 })

/-- `getSimilarityConfidence`. -/
def getSimilarityConfidence (similarity : ℚ) : DuplicateConfidence :=
  if 99/100 ≤ similarity then DuplicateConfidence.exact
  else if 85/100 ≤ similarity then DuplicateConfidence.high
  else if 7/10 ≤ similarity then DuplicateConfidence.medium
  else DuplicateConfidence.low

/-- Descending-similarity comparison used for `matches.sort((a, b) =>
b.similarity - a.similarity)`. -/
def simDescRel (a b : DuplicateMatch) : Prop := b.similarity ≤ a.similarity

instance : DecidableRel simDescRel :=
  fun a b => inferInstanceAs (Decidable (b.similarity ≤ a.similarity))

instance : IsTotal DuplicateMatch simDescRel :=
  ⟨fun a b => le_total b.similarity a.similarity⟩

instance : IsTrans DuplicateMatch simDescRel :=
  ⟨fun _ _ _ hab hbc => le_trans hbc hab⟩

/-- The if/else chain that turns the best match's confidence into the
suggested action. -/
def actionForConfidence (confidence : DuplicateConfidence) : SuggestedAction :=
  if confidence = DuplicateConfidence.exact ∨ confidence = DuplicateConfidence.high then
    SuggestedAction.merge
  else if confidence = DuplicateConfidence.medium then SuggestedAction.review
  else SuggestedAction.add_new

/-- `detectDuplicateDocument` — multi-strategy duplicate detection.  The
in-place stable JS sort is modelled by a stable insertion sort. -/
def detectDuplicateDocument (newDoc : DocumentFingerprint)
    (existingDocs : List ExistingDocument) : DuplicateCheckResult :=
  if existingDocs.isEmpty then
    { isDuplicate := false, confidence := none, matchedDocuments := [],
      suggestedAction := none }
  else
    let newFp := newDocFingerprint newDoc
    let matchList := existingDocs.filterMap (matchCandidate newDoc newFp)
    match List.insertionSort simDescRel matchList with
    | [] =>
        { isDuplicate := false, confidence := none, matchedDocuments := [],
          suggestedAction := none }
    | bestMatch :: rest =>
        let confidence := getSimilarityConfidence bestMatch.similarity
        { isDuplicate := true
          confidence := some confidence
          matchedDocuments := bestMatch :: rest
          suggestedAction := some (actionForConfidence confidence) }

/- ── Derived definitions and concrete test inputs ─────────────────── -/

/-- The effective day count `fullDays + partialDayFraction` computed by
`calculateDiet` for a trip of `totalHours` elapsed hours. -/
def dietTotalDays (totalHours : ℚ) : ℚ :=
  (dietFullDays totalHours : ℚ) +
    (if 0 < dietRemainder totalHours then
      getMultiplierForHours (dietRemainder totalHours)
    else 0)

/-- The numeric fields of a `DietResult` (day counts and amounts). -/
def dietKeyFields (r : DietResult) : ℤ × ℚ × ℚ × ℚ × ℚ × ℚ × ℚ :=
  (r.fullDays, r.partialDay, r.partialDayMultiplier, r.totalDays,
    r.dietBeforeBreakfast, r.breakfastDeduction, r.totalDiet)

/-- The key numeric fields of a frontend `TaxSnapshot`. -/
def snapshotKeyFields (r : TaxSnapshot) : ℚ × ℚ × ℚ × ℚ × ℚ :=
  (r.salaryNetto, r.zusRazem, r.skladkaZdrowotna, r.kup, r.zaliczkaPIT)

/-- Scenario input: trip 2024-01-10T08:00Z → 2024-01-12T14:00Z (54 h),
daily rate 45, one breakfast, CLOSED mode. -/
def c2input : DietInput :=
  { startDatetime := 1704873600000
    plannedEndDatetime := none
    actualEndDatetime := some 1705068000000
    mode := DietMode.CLOSED
    dailyRate := 45
    currency := "PLN"
    breakfastCount := 1 }

/-- Gross 5000, no voluntary sickness insurance, no PPK, default 2024/2025
rates. -/
def c3input : SalaryInput :=
  { brutto := 5000
    voluntarySocialSecurity := false
    ppkEnabled := false
    ppkPercentage := 2
    taxRates := none }

/-- PLANNED-mode input with no planned end (must fail). -/
def c5inputMissing : DietInput :=
  { startDatetime := 0
    plannedEndDatetime := none
    actualEndDatetime := none
    mode := DietMode.PLANNED
    dailyRate := 45
    currency := "PLN"
    breakfastCount := 0 }

/-- CLOSED-mode input whose actual end equals its start (degenerate period). -/
def c5inputDegenerate : DietInput :=
  { startDatetime := 0
    plannedEndDatetime := none
    actualEndDatetime := some 0
    mode := DietMode.CLOSED
    dailyRate := 45
    currency := "PLN"
    breakfastCount := 0 }

/-- The all-zero `DietResult` produced for a degenerate period starting and
ending at epoch instant 0. -/
def dietZero0 : DietResult :=
  { fullDays := 0
    partialDay := 0
    partialDayMultiplier := 0
    totalDays := 0
    dietBeforeBreakfast := 0
    breakfastDeduction := 0
    totalDiet := 0
    currency := "PLN"
    breakdown := "Delegacja jeszcze się nie zaczęła lub ma zerowy czas trwania."
    detailedBreakdown := []
    endDatetime := 0
    isLive := false }

/-- A closed project with no transactions and no advances. -/
def pbInput0 : ProjectBalanceInput :=
  { project :=
      { startDatetime := 0
        plannedEndDatetime := none
        actualEndDatetime := some 0
        status := ProjectStatus.CLOSED
        dietAmountSnapshot := 45
        hotelLimitSnapshot := 270
        currency := "PLN"
        breakfastCount := 0 }
    transactions := []
    advances := [] }

/-- The balance result computed for `pbInput0`. -/
def pbRes0 : ProjectBalanceResult :=
  { advancesTotal := 0
    expensesTotal := 0
    categoryTotals := { FOOD := 0, TRANSPORT := 0, HOTEL := 0, PARKING := 0,
                        FUEL := 0, OTHER := 0 }
    hotelCombined := 0
    hotelLimit := 270
    hotelStatus := HotelStatus.no_hotel
    hotelOverage := 0
    diet := dietZero0
    balance := 0
    balanceDescription := "Zaliczki: +0.00 PLN\nWydatki: -0.00 PLN\nDieta: +0.00 PLN\n────────────────────\nSALDO: +0.00 PLN\n✓ Rozliczenie zerowe"
    averageDailyExpense := 0
    transactionCount := 0 }

/-- A closed project with one HOTEL transaction exactly at the hotel limit. -/
def pbInput1 : ProjectBalanceInput :=
  { project :=
      { startDatetime := 0
        plannedEndDatetime := none
        actualEndDatetime := some 0
        status := ProjectStatus.CLOSED
        dietAmountSnapshot := 45
        hotelLimitSnapshot := 270
        currency := "PLN"
        breakfastCount := 0 }
    transactions := [{ id := "t1", date := 0, amount := 270, category := "HOTEL",
                       isPrivate := false, excludedFromProject := false }]
    advances := [] }

/-- The balance result computed for `pbInput1` (hotel spend equal to the
limit). -/
def pbRes1 : ProjectBalanceResult :=
  { advancesTotal := 0
    expensesTotal := 270
    categoryTotals := { FOOD := 0, TRANSPORT := 0, HOTEL := 270, PARKING := 0,
                        FUEL := 0, OTHER := 0 }
    hotelCombined := 270
    hotelLimit := 270
    hotelStatus := HotelStatus.within_limit
    hotelOverage := 0
    diet := dietZero0
    balance := -270
    balanceDescription := "Zaliczki: +0.00 PLN\nWydatki: -270.00 PLN\nDieta: +0.00 PLN\n────────────────────\nSALDO: -270.00 PLN\n❌ Musisz zwrócić firmie"
    averageDailyExpense := 0
    transactionCount := 1 }

/-- New document that matches only by invoice number. -/
def c7newDoc : DocumentFingerprint :=
  { invoiceNumber := some "FV-1", amount := none, date := none, vendorName := none }

/-- Stored document with the same invoice number up to trim/case. -/
def c7existing : ExistingDocument :=
  { id := "d1", fingerprint := none, invoiceNumber := some " fv-1 ",
    detectedAmount := none, detectedDate := none, vendorName := none,
    originalFilename := "a.pdf" }

/-- The strategy-4 match produced for `c7newDoc` against `c7existing`. -/
def c7match : DuplicateMatch :=
  { id := "d1", invoiceNumber := some " fv-1 ", amount := none, date := none,
    vendorName := none, originalFilename := "a.pdf", similarity := 3/5,
    matchReason := "Identyczny numer faktury" }

/-- New document with no extractable fields at all. -/
def c7cexNewDoc : DocumentFingerprint :=
  { invoiceNumber := none, amount := none, date := none, vendorName := none }

/-- A stored document that matches no strategy against `c7cexNewDoc`. -/
def c7cexExisting : ExistingDocument :=
  { id := "d2", fingerprint := none, invoiceNumber := none,
    detectedAmount := none, detectedDate := none, vendorName := none,
    originalFilename := "b.pdf" }

/-- New document with populated invoice number and date but amount zero. -/
def c10newDoc : DocumentFingerprint :=
  { invoiceNumber := some "FV-9", amount := some 0,
    date := some 1704067200000, vendorName := none }

/-- Stored document with the same (zero) amount on the same calendar day. -/
def c10existing : ExistingDocument :=
  { id := "e9", fingerprint := some "deadbeef", invoiceNumber := none,
    detectedAmount := some 0, detectedDate := some 1704067200000,
    vendorName := none, originalFilename := "c.pdf" }

/-- The strategy-2 match produced for `c10newDoc` against `c10existing`. -/
def c10match : DuplicateMatch :=
  { id := "e9", invoiceNumber := none, amount := some 0,
    date := some 1704067200000, vendorName := none, originalFilename := "c.pdf",
    similarity := 92/100, matchReason := "Identyczna kwota i data" }

/- ── Supporting lemmas ────────────────────────────────────────────── -/

theorem round2_mono {a b : ℚ} (h : a ≤ b) : round2 a ≤ round2 b := by
  unfold round2
  have hf : (⌊a * 100 + 1/2⌋ : ℤ) ≤ ⌊b * 100 + 1/2⌋ :=
    Int.floor_le_floor (by linarith)
  have hq : ((⌊a * 100 + 1/2⌋ : ℤ) : ℚ) ≤ ((⌊b * 100 + 1/2⌋ : ℤ) : ℚ) :=
    Int.cast_le.mpr hf
  linarith

theorem round2_zero : round2 0 = 0 := by
  unfold round2
  norm_num

theorem getMultiplierForHours_nonneg (hours : ℚ) :
    0 ≤ getMultiplierForHours hours := by
  unfold getMultiplierForHours
  split_ifs <;> norm_num

theorem getMultiplierForHours_le_one (hours : ℚ) :
    getMultiplierForHours hours ≤ 1 := by
  unfold getMultiplierForHours
  split_ifs <;> norm_num

theorem getMultiplierForHours_mono {a b : ℚ} (hab : a ≤ b) :
    getMultiplierForHours a ≤ getMultiplierForHours b := by
  unfold getMultiplierForHours
  by_cases ha8 : a < 8
  · rw [if_pos ha8]
    by_cases hb8 : b < 8
    · rw [if_pos hb8]
    · rw [if_neg hb8]
      by_cases hb12 : 8 ≤ b ∧ b < 12
      · rw [if_pos hb12]; norm_num
      · rw [if_neg hb12]; norm_num
  · rw [if_neg ha8]
    have hb8 : ¬b < 8 := fun hb => ha8 (lt_of_le_of_lt hab hb)
    rw [if_neg hb8]
    by_cases ha12 : 8 ≤ a ∧ a < 12
    · rw [if_pos ha12]
      by_cases hb12 : 8 ≤ b ∧ b < 12
      · rw [if_pos hb12]
      · rw [if_neg hb12]; norm_num
    · rw [if_neg ha12]
      have ha12' : 12 ≤ a := by
        by_contra hcon
        exact ha12 ⟨le_of_not_lt ha8, lt_of_not_le hcon⟩
      have hb12 : ¬(8 ≤ b ∧ b < 12) := fun hcon => by linarith [hcon.2]
      rw [if_neg hb12]

theorem dietRemainder_nonneg (totalHours : ℚ) : 0 ≤ dietRemainder totalHours := by
  unfold dietRemainder dietFullDays
  have hfl := Int.floor_le (totalHours / 24)
  linarith

theorem dietFullDays_mono {a b : ℚ} (hab : a ≤ b) :
    dietFullDays a ≤ dietFullDays b := by
  unfold dietFullDays
  exact Int.floor_le_floor (by linarith)

theorem dietTotalDays_mono {a b : ℚ} (hab : a ≤ b) :
    dietTotalDays a ≤ dietTotalDays b := by
  unfold dietTotalDays
  rcases eq_or_lt_of_le (dietFullDays_mono hab) with heq | hlt
  · have hr : dietRemainder a ≤ dietRemainder b := by
      unfold dietRemainder
      rw [heq]
      linarith
    rw [heq]
    by_cases hra : 0 < dietRemainder a
    · rw [if_pos hra, if_pos (lt_of_lt_of_le hra hr)]
      exact add_le_add_left (getMultiplierForHours_mono hr) _
    · rw [if_neg hra]
      have hnn : (0:ℚ) ≤
          (if 0 < dietRemainder b then getMultiplierForHours (dietRemainder b) else 0) := by
        split
        · exact getMultiplierForHours_nonneg _
        · exact le_refl 0
      linarith
  · have hstep : (dietFullDays a : ℚ) + 1 ≤ (dietFullDays b : ℚ) := by
      exact_mod_cast Int.add_one_le_iff.mpr hlt
    have hca : (if 0 < dietRemainder a then getMultiplierForHours (dietRemainder a) else 0) ≤ 1 := by
      split
      · exact getMultiplierForHours_le_one _
      · norm_num
    have hcb : (0:ℚ) ≤
        (if 0 < dietRemainder b then getMultiplierForHours (dietRemainder b) else 0) := by
      split
      · exact getMultiplierForHours_nonneg _
      · exact le_refl 0
    linarith

theorem calculateDietCore_endDatetime (s e : ℤ) (rate : ℚ) (cur : String)
    (bc : ℚ) (l : Bool) : (calculateDietCore s e rate cur bc l).endDatetime = e := by
  unfold calculateDietCore
  split <;> rfl

theorem calculateDietCore_degenerate (s e : ℤ) (rate : ℚ) (cur : String)
    (bc : ℚ) (l : Bool) (h : e ≤ s) :
    calculateDietCore s e rate cur bc l =
      { fullDays := 0
        partialDay := 0
        partialDayMultiplier := 0
        totalDays := 0
        dietBeforeBreakfast := 0
        breakfastDeduction := 0
        totalDiet := 0
        currency := cur
        breakdown := "Delegacja jeszcze się nie zaczęła lub ma zerowy czas trwania."
        detailedBreakdown := []
        endDatetime := e
        isLive := l } := by
  unfold calculateDietCore
  rw [if_pos h]

theorem calculateDietCore_totalDiet (s e : ℤ) (rate : ℚ) (cur : String)
    (bc : ℚ) (l : Bool) (h : ¬e ≤ s) :
    (calculateDietCore s e rate cur bc l).totalDiet =
      round2 (max 0 (dietTotalDays (tripTotalHours s e) * rate -
        min (bc * (rate * (25/100))) (dietTotalDays (tripTotalHours s e) * rate))) := by
  unfold calculateDietCore
  rw [if_neg h]
  rfl

theorem calculateDietCore_partialDayMultiplier (s e : ℤ) (rate : ℚ) (cur : String)
    (bc : ℚ) (l : Bool) (h : ¬e ≤ s) :
    (calculateDietCore s e rate cur bc l).partialDayMultiplier =
      getMultiplierForHours (dietRemainder (tripTotalHours s e)) := by
  unfold calculateDietCore
  rw [if_neg h]

theorem maxSubMin (b d : ℚ) : max 0 (d - min b d) = max 0 (d - b) := by
  rcases le_total b d with h | h
  · rw [min_eq_left h]
  · rw [min_eq_right h, sub_self, max_self]
    exact (max_eq_left (by linarith)).symm

theorem calculateDietCore_totalDiet_nonneg (s e : ℤ) (rate : ℚ) (cur : String)
    (bc : ℚ) (l : Bool) : 0 ≤ (calculateDietCore s e rate cur bc l).totalDiet := by
  by_cases h : e ≤ s
  · rw [calculateDietCore_degenerate s e rate cur bc l h]
  · rw [calculateDietCore_totalDiet s e rate cur bc l h]
    have hm := round2_mono (le_max_left 0
      (dietTotalDays (tripTotalHours s e) * rate -
        min (bc * (rate * (25/100))) (dietTotalDays (tripTotalHours s e) * rate)))
    rwa [round2_zero] at hm

theorem calculateDietCore_totalDiet_mono (s e1 e2 : ℤ) (rate bc : ℚ)
    (cur : String) (l1 l2 : Bool) (hr : 0 ≤ rate) (he : e1 ≤ e2) :
    (calculateDietCore s e1 rate cur bc l1).totalDiet ≤
      (calculateDietCore s e2 rate cur bc l2).totalDiet := by
  by_cases h2 : e2 ≤ s
  · rw [calculateDietCore_degenerate s e1 rate cur bc l1 (le_trans he h2),
      calculateDietCore_degenerate s e2 rate cur bc l2 h2]
  · by_cases h1 : e1 ≤ s
    · rw [calculateDietCore_degenerate s e1 rate cur bc l1 h1]
      exact calculateDietCore_totalDiet_nonneg s e2 rate cur bc l2
    · rw [calculateDietCore_totalDiet s e1 rate cur bc l1 h1,
        calculateDietCore_totalDiet s e2 rate cur bc l2 h2]
      apply round2_mono
      rw [maxSubMin, maxSubMin]
      have hh : tripTotalHours s e1 ≤ tripTotalHours s e2 := by
        unfold tripTotalHours
        have hc : ((e1 - s : ℤ) : ℚ) ≤ ((e2 - s : ℤ) : ℚ) := by
          exact_mod_cast sub_le_sub_right he s
        linarith
      have hD : dietTotalDays (tripTotalHours s e1) * rate ≤
          dietTotalDays (tripTotalHours s e2) * rate :=
        mul_le_mul_of_nonneg_right (dietTotalDays_mono hh) hr
      exact max_le_max (le_refl 0) (by linarith)

/- ── Claim theorems ───────────────────────────────────────────────── -/

/-- C1: for every input on which `calculateProjectBalance` succeeds, the
returned `balance` equals `round2(advancesTotal − expensesTotal +
diet.totalDiet)` computed from the other fields of the same result. -/
theorem C1_balance_identity (now : ℤ) (input : ProjectBalanceInput)
    (res : ProjectBalanceResult)
    (h : calculateProjectBalance now input = Except.ok res) :
    res.balance = round2 (res.advancesTotal - res.expensesTotal + res.diet.totalDiet) := by
  simp only [calculateProjectBalance] at h
  cases hd : calculateDiet now (projectDietInput input.project) with
  | error e =>
      rw [hd] at h
      simp [Except.map] at h
  | ok diet =>
      rw [hd] at h
      simp only [Except.map, Except.ok.injEq] at h
      subst h
      rfl

/-- Witness for C1: a concrete closed project evaluates to `pbRes0`, on which
the balance identity is obtained from `C1_balance_identity`. -/
theorem C1_balance_identity_witness :
    calculateProjectBalance 0 pbInput0 = Except.ok pbRes0 ∧
    pbRes0.balance =
      round2 (pbRes0.advancesTotal - pbRes0.expensesTotal + pbRes0.diet.totalDiet) := by
  have hok : calculateProjectBalance 0 pbInput0 = Except.ok pbRes0 := by
    norm_num [calculateProjectBalance, pbInput0, pbRes0, dietZero0, projectDietInput,
      getDietMode, calculateDiet, calculateDietCore, calculateTripHours, addToCategory,
      buildBalanceDescription, toFixed2, round2, jsRound, Except.map, String.intercalate]
    rfl
  exact ⟨hok, C1_balance_identity 0 pbInput0 pbRes0 hok⟩

/-- C2 counterexample: on the 54-hour scenario trip the returned `totalDays`
is 2.33 (rounded to 2 decimal places), not the claimed 2.333. -/
theorem C2_totalDays_counterexample :
    (calculateDiet 0 c2input).map DietResult.totalDays = Except.ok (233/100) ∧
    (233/100 : ℚ) ≠ 2333/1000 := by
  constructor
  · norm_num [calculateDiet, calculateDietCore, c2input, tripTotalHours,
      dietFullDays, dietRemainder, getMultiplierForHours, round2, jsRound,
      Except.map]
  · norm_num

/-- C2 (amended): the 54-hour scenario trip with daily rate 45 and one
breakfast yields fullDays 2, a 6-hour remainder with multiplier 1/3,
totalDays 2.33, dietBeforeBreakfast 105.00, breakfastDeduction 11.25 and
totalDiet 93.75. -/
theorem C2_diet_scenario :
    (calculateDiet 0 c2input).map dietKeyFields =
      Except.ok (2, 6, 1/3, 233/100, 105, 45/4, 375/4) := by
  norm_num [calculateDiet, calculateDietCore, c2input, dietKeyFields,
    tripTotalHours, dietFullDays, dietRemainder, getMultiplierForHours,
    round2, jsRound, Except.map]

/-- C3: gross 5000 with no voluntary sickness insurance and no PPK under the
2024/2025 snapshot yields pension 488.00, disability 75.00, total social
security 563.00, health base 4437.00, health 399.33, capped cost of income
250.00, whole-unit tax base 4187, tax before deduction 502.44, tax-free
deduction 300.00, income tax 202.44 and netto 3835.23. -/
theorem C3_salary_scenario :
    (calculateSalaryNet c3input).pensionContribution = 488 ∧
    (calculateSalaryNet c3input).disabilityContribution = 75 ∧
    (calculateSalaryNet c3input).sicknessContribution = 0 ∧
    (calculateSalaryNet c3input).totalSocialSecurity = 563 ∧
    (calculateSalaryNet c3input).healthInsuranceBase = 4437 ∧
    (calculateSalaryNet c3input).healthInsurance = 39933/100 ∧
    (calculateSalaryNet c3input).costOfIncome = 250 ∧
    (calculateSalaryNet c3input).taxBase = 4187 ∧
    (calculateSalaryNet c3input).taxBeforeDeduction = 50244/100 ∧
    (calculateSalaryNet c3input).taxFreeDeduction = 300 ∧
    (calculateSalaryNet c3input).incomeTax = 20244/100 ∧
    (calculateSalaryNet c3input).netto = 383523/100 := by
  norm_num [calculateSalaryNet, c3input, TAX_RATES_2024_2025, round2, jsRound]

/-- C4: for every trip with positive elapsed time, the returned partial-day
multiplier follows the closed non-overlapping rule on the remainder
`r = hours mod 24`: `r < 8 → 1/3`, `8 ≤ r < 12 → 1/2`, `r ≥ 12 → 1`; in
particular a remainder of exactly 8 gives 1/2 and exactly 12 gives 1. -/
theorem C4_multiplier_boundaries (s e : ℤ) (rate bc : ℚ) (cur : String)
    (l : Bool) (hse : s < e) :
    (calculateDietCore s e rate cur bc l).partialDayMultiplier =
      (if dietRemainder (tripTotalHours s e) < 8 then 1/3
       else if dietRemainder (tripTotalHours s e) < 12 then 1/2
       else 1) ∧
    (dietRemainder (tripTotalHours s e) = 8 →
      (calculateDietCore s e rate cur bc l).partialDayMultiplier = 1/2) ∧
    (dietRemainder (tripTotalHours s e) = 12 →
      (calculateDietCore s e rate cur bc l).partialDayMultiplier = 1) := by
  have hne : ¬e ≤ s := not_le.mpr hse
  rw [calculateDietCore_partialDayMultiplier s e rate cur bc l hne]
  set r := dietRemainder (tripTotalHours s e) with hrdef
  refine ⟨?_, ?_, ?_⟩
  · unfold getMultiplierForHours
    by_cases h8 : r < 8
    · simp only [if_pos h8]
    · simp only [if_neg h8]
      by_cases h12 : r < 12
      · rw [if_pos ⟨le_of_not_lt h8, h12⟩, if_pos h12]
      · rw [if_neg (fun hc => h12 hc.2), if_neg h12]
  · intro h8
    unfold getMultiplierForHours
    rw [h8]
    norm_num
  · intro h12
    unfold getMultiplierForHours
    rw [h12]
    norm_num

/-- Witness for C4: an 8-hour trip has remainder exactly 8 and multiplier 1/2,
obtained from `C4_multiplier_boundaries`. -/
theorem C4_multiplier_boundaries_witness :
    ((0:ℤ) < 28800000) ∧
    (calculateDietCore 0 28800000 45 "PLN" 0 false).partialDayMultiplier = 1/2 := by
  have h := C4_multiplier_boundaries 0 28800000 45 0 "PLN" false (by norm_num)
  refine ⟨by norm_num, h.2.1 ?_⟩
  norm_num [dietRemainder, dietFullDays, tripTotalHours]

/-- C5: `calculateDiet` fails exactly when PLANNED mode lacks a planned end or
CLOSED mode lacks an actual end; any successful result whose effective end
instant is at most the start instant has all day counts and amounts zero and
carries the explanatory message. -/
theorem C5_error_taxonomy (now : ℤ) (input : DietInput) :
    ((∃ e, calculateDiet now input = Except.error e) ↔
      (input.mode = DietMode.PLANNED ∧ input.plannedEndDatetime = none) ∨
      (input.mode = DietMode.CLOSED ∧ input.actualEndDatetime = none)) ∧
    (∀ r, calculateDiet now input = Except.ok r →
      r.endDatetime ≤ input.startDatetime →
      r.fullDays = 0 ∧ r.partialDay = 0 ∧ r.partialDayMultiplier = 0 ∧
      r.totalDays = 0 ∧ r.dietBeforeBreakfast = 0 ∧ r.breakfastDeduction = 0 ∧
      r.totalDiet = 0 ∧
      r.breakdown = "Delegacja jeszcze się nie zaczęła lub ma zerowy czas trwania.") := by
  obtain ⟨s, pe, ae, mode, rate, cur, bc⟩ := input
  constructor
  · cases mode <;> cases pe <;> cases ae <;> simp [calculateDiet]
  · intro r hr hle
    cases mode <;> cases pe <;> cases ae <;>
      simp only [calculateDiet, Except.ok.injEq] at hr <;>
      try subst hr
    all_goals
      first
      | (rw [calculateDietCore_endDatetime] at hle
         rw [calculateDietCore_degenerate _ _ _ _ _ _ hle]
         exact ⟨rfl, rfl, rfl, rfl, rfl, rfl, rfl, rfl⟩)
      | exact absurd hr (by simp)

/-- Witness for C5: the PLANNED input without a planned end fails, and the
degenerate CLOSED input produces the all-zero result, via `C5_error_taxonomy`. -/
theorem C5_error_taxonomy_witness :
    calculateDiet 0 c5inputDegenerate = Except.ok dietZero0 ∧
    dietZero0.endDatetime ≤ c5inputDegenerate.startDatetime ∧
    (dietZero0.totalDiet = 0 ∧ dietZero0.fullDays = 0 ∧
      dietZero0.breakdown = "Delegacja jeszcze się nie zaczęła lub ma zerowy czas trwania.") ∧
    (c5inputMissing.mode = DietMode.PLANNED ∧ c5inputMissing.plannedEndDatetime = none) := by
  have hok : calculateDiet 0 c5inputDegenerate = Except.ok dietZero0 := rfl
  have hz := (C5_error_taxonomy 0 c5inputDegenerate).2 dietZero0 hok (by norm_num [dietZero0, c5inputDegenerate])
  exact ⟨hok, by norm_num [dietZero0, c5inputDegenerate],
    ⟨hz.2.2.2.2.2.2.1, hz.1, hz.2.2.2.2.2.2.2⟩, rfl, rfl⟩

/-- C6 (code-bug evidence): the frontend tax-snapshot calculator applied to
contract type B2B silently returns a computed net figure — a PIT-only formula
with zero ZUS and zero health contribution — instead of surfacing the case as
not computable.  At gross 5000 it returns netto 4400. -/
theorem C6_b2b_computes_net :
    (calculateTaxSnapshot "2025-01-01T00:00:00.000Z" 2025 5000 "PLN" "B2B"
      false false 2 0 0).map snapshotKeyFields =
      Except.ok (4400, 0, 0, 0, 600) := by
  have hz : ¬("B2B" = "CIVIL_CONTRACT" ∨ "B2B" = "EMPLOYMENT") := by decide
  norm_num [calculateTaxSnapshot, snapshotKeyFields, Except.map, hz]

/-- C9: for a fixed start instant, non-negative daily rate and fixed breakfast
count, the `totalDiet` returned by `calculateDiet` in CLOSED mode is
non-decreasing in the end instant. -/
theorem C9_diet_duration_monotone (now s e1 e2 : ℤ) (rate bc : ℚ) (cur : String)
    (hr : 0 ≤ rate) (he : e1 ≤ e2) (d1 d2 : ℚ)
    (h1 : (calculateDiet now
        { startDatetime := s, plannedEndDatetime := none,
          actualEndDatetime := some e1, mode := DietMode.CLOSED,
          dailyRate := rate, currency := cur, breakfastCount := bc }).map
        DietResult.totalDiet = Except.ok d1)
    (h2 : (calculateDiet now
        { startDatetime := s, plannedEndDatetime := none,
          actualEndDatetime := some e2, mode := DietMode.CLOSED,
          dailyRate := rate, currency := cur, breakfastCount := bc }).map
        DietResult.totalDiet = Except.ok d2) :
    d1 ≤ d2 := by
  simp only [calculateDiet, Except.map, Except.ok.injEq] at h1 h2
  subst h1
  subst h2
  exact calculateDietCore_totalDiet_mono s e1 e2 rate bc cur false false hr he

/-- Witness for C9: from a degenerate trip (totalDiet 0) to the 54-hour trip
(totalDiet 105) the diet does not decrease, via `C9_diet_duration_monotone`. -/
theorem C9_diet_duration_monotone_witness :
    ((0:ℚ) ≤ 45) ∧ ((1704873600000:ℤ) ≤ 1705068000000) ∧ ((0:ℚ) ≤ 105) := by
  refine ⟨by norm_num, by norm_num, ?_⟩
  exact C9_diet_duration_monotone 0 1704873600000 1704873600000 1705068000000
    45 0 "PLN" (by norm_num) (by norm_num) 0 105
    (by norm_num [calculateDiet, calculateDietCore, Except.map])
    (by norm_num [calculateDiet, calculateDietCore, tripTotalHours, dietFullDays,
      dietRemainder, getMultiplierForHours, round2, jsRound, Except.map])

/-- C7 counterexample: when no strategy matches, `suggestedAction` is `none`
(`null`), not `'add_new'` as the claim states for "no match at all". -/
theorem C7_no_match_counterexample :
    (detectDuplicateDocument c7cexNewDoc [c7cexExisting]).matchedDocuments = [] ∧
    (detectDuplicateDocument c7cexNewDoc [c7cexExisting]).suggestedAction = none ∧
    (detectDuplicateDocument c7cexNewDoc [c7cexExisting]).suggestedAction ≠
      some SuggestedAction.add_new := by
  refine ⟨rfl, rfl, ?_⟩
  intro h
  exact Option.noConfusion h

/-- C7 (amended): `matchedDocuments` is sorted by descending similarity and,
when at least one match exists, `suggestedAction` is derived from the best
match's confidence (exact/high → merge, medium → review, low → add_new); when
there is no match at all, `suggestedAction` is `none`. -/
theorem C7_sorted_and_actions (newDoc : DocumentFingerprint)
    (docs : List ExistingDocument) :
    List.Sorted simDescRel (detectDuplicateDocument newDoc docs).matchedDocuments ∧
    ((detectDuplicateDocument newDoc docs).matchedDocuments = [] →
      (detectDuplicateDocument newDoc docs).suggestedAction = none) ∧
    (∀ m rest, (detectDuplicateDocument newDoc docs).matchedDocuments = m :: rest →
      (detectDuplicateDocument newDoc docs).suggestedAction =
        some (actionForConfidence (getSimilarityConfidence m.similarity))) := by
  unfold detectDuplicateDocument
  split
  · exact ⟨List.sorted_nil, fun _ => rfl, fun m rest h => List.noConfusion h⟩
  · dsimp only
    split
    · exact ⟨List.sorted_nil, fun _ => rfl, fun m rest h => List.noConfusion h⟩
    · rename_i best rest heq
      refine ⟨?_, ?_, ?_⟩
      · show List.Sorted simDescRel (best :: rest)
        rw [← heq]
        exact List.sorted_insertionSort simDescRel _
      · intro hnil
        exact absurd hnil (by simp)
      · intro m rest2 hEq
        have hEq' : best = m := (List.cons.injEq _ _ _ _ ▸ hEq).1
        subst hEq'
        rfl

/-- Witness for C7: a lone invoice-number match (similarity 0.6, confidence
low) yields `suggestedAction = add_new`, via `C7_sorted_and_actions`. -/
theorem C7_sorted_and_actions_witness :
    (detectDuplicateDocument c7newDoc [c7existing]).matchedDocuments = [c7match] ∧
    (detectDuplicateDocument c7newDoc [c7existing]).suggestedAction =
      some SuggestedAction.add_new := by
  have hm : (detectDuplicateDocument c7newDoc [c7existing]).matchedDocuments =
      [c7match] := rfl
  have hact := (C7_sorted_and_actions c7newDoc [c7existing]).2.2 c7match [] hm
  have hconf : getSimilarityConfidence c7match.similarity = DuplicateConfidence.low := by
    norm_num [c7match, getSimilarityConfidence]
  rw [hconf] at hact
  exact ⟨hm, hact.trans (by decide)⟩

/-- C8: hotel classification in `calculateProjectBalance` is
boundary-inclusive: combined 0 → no_hotel; 0 < combined ≤ limit (equality
included) → within_limit with overage 0; combined > limit → over_limit with
overage `round2(combined − limit)` (stated for the non-negative hotel limits
the data model provides). -/
theorem C8_hotel_classification (now : ℤ) (input : ProjectBalanceInput)
    (res : ProjectBalanceResult)
    (h : calculateProjectBalance now input = Except.ok res)
    (hlim : 0 ≤ input.project.hotelLimitSnapshot) :
    (res.hotelCombined = 0 → res.hotelStatus = HotelStatus.no_hotel) ∧
    (0 < res.hotelCombined → res.hotelCombined ≤ res.hotelLimit →
      res.hotelStatus = HotelStatus.within_limit ∧ res.hotelOverage = 0) ∧
    (res.hotelLimit < res.hotelCombined →
      res.hotelStatus = HotelStatus.over_limit ∧
      res.hotelOverage = round2 (res.hotelCombined - res.hotelLimit)) := by
  simp only [calculateProjectBalance] at h
  cases hd : calculateDiet now (projectDietInput input.project) with
  | error e =>
      rw [hd] at h
      simp [Except.map] at h
  | ok diet =>
      rw [hd] at h
      simp only [Except.map, Except.ok.injEq] at h
      subst h
      refine ⟨?_, ?_, ?_⟩
      · intro h0
        dsimp only at h0 ⊢
        rw [h0]
        norm_num
      · intro hpos hle
        dsimp only at hpos hle ⊢
        constructor
        · rw [if_pos hpos, if_pos hle]
        · rw [if_neg (fun hcon => hcon.2 hle)]
      · intro hgt
        dsimp only at hgt ⊢
        have hpos := lt_of_le_of_lt hlim hgt
        have hnle := not_le.mpr hgt
        constructor
        · rw [if_pos hpos, if_neg hnle]
        · rw [if_pos ⟨hpos, hnle⟩]

/-- Witness for C8: a hotel spend exactly equal to the limit classifies as
within_limit with zero overage, via `C8_hotel_classification`. -/
theorem C8_hotel_classification_witness :
    calculateProjectBalance 0 pbInput1 = Except.ok pbRes1 ∧
    (0:ℚ) ≤ pbInput1.project.hotelLimitSnapshot ∧
    ((0:ℚ) < pbRes1.hotelCombined ∧ pbRes1.hotelCombined ≤ pbRes1.hotelLimit) ∧
    pbRes1.hotelStatus = HotelStatus.within_limit ∧ pbRes1.hotelOverage = 0 := by
  have hup : jsToUpper "HOTEL" = "HOTEL" := by decide
  have hne1 : ("HOTEL" : String) ≠ "FOOD" := by decide
  have hne2 : ("HOTEL" : String) ≠ "TRANSPORT" := by decide
  have hok : calculateProjectBalance 0 pbInput1 = Except.ok pbRes1 := by
    norm_num [calculateProjectBalance, pbInput1, pbRes1, dietZero0, projectDietInput,
      getDietMode, calculateDiet, calculateDietCore, calculateTripHours, addToCategory,
      buildBalanceDescription, toFixed2, round2, jsRound, Except.map,
      String.intercalate, hup, hne1, hne2]
    rfl
  have hcl := (C8_hotel_classification 0 pbInput1 pbRes1 hok
      (by norm_num [pbInput1])).2.1
    (by norm_num [pbRes1]) (by norm_num [pbRes1])
  exact ⟨hok, by norm_num [pbInput1], ⟨by norm_num [pbRes1], by norm_num [pbRes1]⟩,
    hcl.1, hcl.2⟩

theorem newDocFingerprint_isSome (newDoc : DocumentFingerprint) :
    (newDocFingerprint newDoc).isSome =
      (truthyStr newDoc.invoiceNumber && truthyNum newDoc.amount &&
        newDoc.date.isSome) := by
  unfold newDocFingerprint
  split <;> simp_all

theorem truthyStr_eq_true_iff (s : Option String) :
    truthyStr s = true ↔ ∃ v, s = some v ∧ v ≠ "" := by
  cases s <;> simp [truthyStr]

theorem truthyNum_eq_true_iff (q : Option ℚ) :
    truthyNum q = true ↔ ∃ v, q = some v ∧ v ≠ 0 := by
  cases q <;> simp [truthyNum]

theorem detect_mem_matched (newDoc : DocumentFingerprint)
    (docs : List ExistingDocument) (m : DuplicateMatch)
    (hm : m ∈ (detectDuplicateDocument newDoc docs).matchedDocuments) :
    ∃ ex ∈ docs, matchCandidate newDoc (newDocFingerprint newDoc) ex = some m := by
  unfold detectDuplicateDocument at hm
  split at hm
  · simp at hm
  · dsimp only at hm
    split at hm
    · simp at hm
    · rename_i best rest heq
      dsimp only at hm
      rw [← heq] at hm
      have hmem : m ∈ docs.filterMap (matchCandidate newDoc (newDocFingerprint newDoc)) :=
        (List.Perm.mem_iff (List.perm_insertionSort simDescRel _)).mp hm
      exact List.mem_filterMap.mp hmem

theorem matchCandidate_noFp_sim (newDoc : DocumentFingerprint)
    (ex : ExistingDocument) (m : DuplicateMatch)
    (h : matchCandidate newDoc none ex = some m) :
    m.similarity = 92/100 ∨ m.similarity = 78/100 ∨ m.similarity = 3/5 := by
  unfold matchCandidate at h
  have hs1 : strat1 none ex = false := rfl
  rw [hs1] at h
  simp only [Bool.false_eq_true, if_false] at h
  split_ifs at h with h2 h3 h4
  · simp only [Option.map, Option.some.injEq] at h
    subst h
    left; rfl
  · simp only [Option.map, Option.some.injEq] at h
    subst h
    right; left; rfl
  · simp only [Option.map, Option.some.injEq] at h
    subst h
    right; right; rfl
  · exact Option.noConfusion h

/-- C10: the exact-fingerprint for the new document is generated precisely
when its invoice number is present and non-empty, its amount is present and
non-zero, and its date is present; when it is not generated, every match comes
from strategies 2–4 (similarity 0.92, 0.78 or 0.6, all below 1). -/
theorem C10_fingerprint_guard (newDoc : DocumentFingerprint)
    (docs : List ExistingDocument) :
    ((newDocFingerprint newDoc).isSome = true ↔
      ((∃ v, newDoc.invoiceNumber = some v ∧ v ≠ "") ∧
       (∃ a, newDoc.amount = some a ∧ a ≠ 0) ∧
       newDoc.date ≠ none)) ∧
    (newDocFingerprint newDoc = none →
      ∀ m ∈ (detectDuplicateDocument newDoc docs).matchedDocuments,
        m.similarity < 1 ∧
        (m.similarity = 92/100 ∨ m.similarity = 78/100 ∨ m.similarity = 3/5)) := by
  constructor
  · rw [newDocFingerprint_isSome, Bool.and_eq_true, Bool.and_eq_true,
      truthyStr_eq_true_iff, truthyNum_eq_true_iff]
    simp only [Option.isSome_iff_ne_none]
    tauto
  · intro hfp m hm
    obtain ⟨ex, hex, hcand⟩ := detect_mem_matched newDoc docs m hm
    rw [hfp] at hcand
    have hsim := matchCandidate_noFp_sim newDoc ex m hcand
    refine ⟨?_, hsim⟩
    rcases hsim with h | h | h <;> rw [h] <;> norm_num

/-- Witness for C10: a document with a populated invoice number and date but
amount 0 gets no fingerprint, yet still matches by strategy 2 (similarity
0.92 < 1), via `C10_fingerprint_guard`. -/
theorem C10_fingerprint_guard_witness :
    newDocFingerprint c10newDoc = none ∧
    c10newDoc.invoiceNumber = some "FV-9" ∧ c10newDoc.amount = some 0 ∧
    c10newDoc.date.isSome = true ∧
    c10match ∈ (detectDuplicateDocument c10newDoc [c10existing]).matchedDocuments ∧
    c10match.similarity < 1 := by
  have hfp : newDocFingerprint c10newDoc = none := by
    norm_num [newDocFingerprint, truthyNum, truthyStr, c10newDoc]
  have hlist : (detectDuplicateDocument c10newDoc [c10existing]).matchedDocuments =
      [c10match] := by
    norm_num [detectDuplicateDocument, newDocFingerprint, truthyNum, truthyStr,
      matchCandidate, strat1, strat2, strat3, strat4, amountsMatch, datesWithinDays,
      c10newDoc, c10existing, c10match, List.filterMap, List.insertionSort,
      List.orderedInsert, Option.map, decide_eq_true_eq]
  have hmem : c10match ∈ (detectDuplicateDocument c10newDoc [c10existing]).matchedDocuments := by
    rw [hlist]
    exact List.mem_singleton.mpr rfl
  have h := (C10_fingerprint_guard c10newDoc [c10existing]).2 hfp c10match hmem
  exact ⟨hfp, rfl, rfl, rfl, hmem, h.1⟩
